import Mathlib

/-!
Verification development for the CleverTap Airbyte connector
(`source_clevertap/streams.py`, `source_clevertap/source.py`).

The connector's core is a two-step cursor pagination protocol: an initiation
POST that returns an opaque cursor, then repeated polls that either report
"still processing" (status "fail", code 2), return a page of records plus an
optional continuation cursor (`next_cursor`), or fail.  These definitions are a
shallow embedding of that code: the network is modelled by passing the
initiation response and the (finite) script of poll responses explicitly, and
Python exceptions are modelled by an explicit error type.  JSON values are a
simple inductive; Python `dict.get` (which returns `None` for a missing key) is
`Json.get`, while `Json.get?` exposes key presence for stating properties.
-/

namespace Clevertap

/-- A JSON value, as produced by `response.json()` in the Python source. -/
inductive Json where
  | null
  | bool (b : Bool)
  | num (n : Int)
  | str (s : String)
  | arr (elems : List Json)
  | obj (fields : List (String × Json))

/-- First binding of `key` in an association list (Python dicts have unique
keys, so the first binding is the binding). -/
def lookupField : List (String × Json) → String → Option Json
  | [], _ => none
  | (pk, pv) :: rest, key => if pk = key then some pv else lookupField rest key

/-- Raw key lookup: `some v` when the key is present, `none` when absent. -/
def Json.get? : Json → String → Option Json
  | .obj fields, key => lookupField fields key
  | _, _ => none

/-- Python `data.get(key)` on a dict: the value when present, `None` (here
`Json.null`) when the key is absent.  On a non-dict receiver Python raises
AttributeError instead of returning a value; the callers below therefore guard
every receiver (response bodies are checked to be objects before field access,
and `flatten_event?` rejects the non-dict receivers of the flattening step)
rather than rely on the `Json.null` this total function returns there. -/
def Json.get (j : Json) (key : String) : Json :=
  (j.get? key).getD Json.null

/-- Python truthiness of a JSON value (`None`, `False`, `0`, `""`, `[]`, `{}`
are falsy, everything else truthy). -/
def Json.truthy : Json → Bool
  | .null => false
  | .bool b => b
  | .num n => n != 0
  | .str s => s != ""
  | .arr elems => !elems.isEmpty
  | .obj fields => !fields.isEmpty

/-- Python `a or b`. -/
def pyOr (a b : Json) : Json :=
  if a.truthy then a else b

/-- Python `j == s` for a string literal `s` (false on any non-string value). -/
def Json.isStr : Json → String → Bool
  | .str t, s => t == s
  | _, _ => false

/-- Python `j == n` for an integer literal `n` (false on any non-number). -/
def Json.isNum : Json → Int → Bool
  | .num m, n => m == n
  | _, _ => false

/-- Whether a JSON value is a dict — the receivers on which Python `.get` and
item assignment are defined. -/
def Json.isObj : Json → Bool
  | .obj _ => true
  | _ => false

/-- Python dict assignment `d[key] = v`: replaces the binding in place when the
key is present, appends it otherwise (dicts preserve insertion order). -/
def setField : List (String × Json) → String → Json → List (String × Json)
  | [], key, v => [(key, v)]
  | (pk, pv) :: rest, key, v =>
    if pk = key then (pk, v) :: rest else (pk, pv) :: setField rest key v

/-- Python `d.pop(key, default)`'s removal effect. -/
def removeField (fields : List (String × Json)) (key : String) :
    List (String × Json) :=
  fields.filter (fun p => p.1 ≠ key)

/-- An HTTP response as seen by the streams: transport status code plus parsed
JSON body. -/
structure HttpResponse where
  statusCode : Nat
  body : Json

/-- Python `response.raise_for_status()` succeeds iff the code is below 400. -/
def httpOk (r : HttpResponse) : Bool :=
  r.statusCode < 400

/-- The distinct Python failure sites of the source, tagged.
`attributeError` is `.get` (or item assignment) reaching a non-dict value — a
non-dict response body, a non-dict record, or a truthy non-dict profile or
event_props value — carrying that value.  `scriptExhausted` is a modelling
artifact: the finite response script ran out where the real code would issue a
further network request. -/
inductive ApiError where
  | transport (statusCode : Nat)
  | remoteStatus (body : Json)
  | noCursor (body : Json)
  | retryExhausted (body : Json)
  | nonListRecords (body : Json)
  | attributeError (value : Json)
  | scriptExhausted

/-- `max_retries = 10` (streams.py lines 124 and 296). -/
def max_retries : Nat := 10

/-- `retry_delay = 5` seconds (streams.py lines 125 and 297). -/
def retry_delay : Nat := 5

/-- `_get_initial_cursor` (streams.py lines 58-90 and 236-265; the two bodies
differ only in URL and request payload, which the response argument abstracts):
raise for transport status, raise at `data.get` when the body is not a dict,
raise unless body status is "success", raise when the cursor is missing
(falsy), else return the cursor. -/
def getInitialCursor (resp : HttpResponse) : Except ApiError Json :=
  if httpOk resp then
    match resp.body with
    | Json.obj fields =>
      let data := Json.obj fields
      if !(data.get "status").isStr "success" then
        .error (.remoteStatus data)
      else
        let cursor := data.get "cursor"
        if cursor.truthy then .ok cursor else .error (.noCursor data)
    | other => .error (.attributeError other)
  else
    .error (.transport resp.statusCode)

/-- The inner `for attempt in range(max_retries)` poll-retry loop (streams.py
lines 127-148 and 299-319).  Consumes one scripted response per attempt.  A
non-dict body raises at `data.get`.  On a body with status "fail" and code 2:
retry while `attempt < max_retries - 1`, else raise "Max retries reached".  On
any other non-success status: raise.  On success: return the accepted body
together with the unconsumed script. -/
def retryLoop : List HttpResponse → Nat → Except ApiError (Json × List HttpResponse)
  | [], _ => .error .scriptExhausted
  | resp :: rest, attempt =>
    if httpOk resp then
      match resp.body with
      | Json.obj fields =>
        let data := Json.obj fields
        if (data.get "status").isStr "fail" && (data.get "code").isNum 2 then
          if attempt < max_retries - 1 then
            retryLoop rest (attempt + 1)
          else
            .error (.retryExhausted data)
        else if !(data.get "status").isStr "success" then
          .error (.remoteStatus data)
        else
          .ok (data, rest)
      | other => .error (.attributeError other)
    else
      .error (.transport resp.statusCode)

/-- `records = data.get("records", [])` followed by iteration: absent key means
an empty page; a present non-list value makes the Python `len`/`for` raise. -/
def getRecords (data : Json) : Except ApiError (List Json) :=
  match data.get? "records" with
  | none => .ok []
  | some (Json.arr elems) => .ok elems
  | some _ => .error (.nonListRecords data)

/-- The `for record in records:` emission loop over one accepted page
(streams.py lines 153-155 and 324-336): each record passes through the
per-record step `transform` (which can raise) and is yielded; records before a
raising one are already yielded, the raising one and its successors are not.
The result is the emitted prefix paired with the aborting error, if any. -/
def emitRecords (transform : Json → Except ApiError Json) :
    List Json → List Json × Option ApiError
  | [] => ([], none)
  | record :: rest =>
    match transform record with
    | .error e => ([], some e)
    | .ok out =>
      let result := emitRecords transform rest
      (out :: result.1, result.2)

/-- The outer `while self._current_cursor:` pagination loop (streams.py lines
119-164 and 291-346), generator semantics made explicit: the result is the list
of records yielded so far paired with the error that aborted the read, if any.
`transform` is the per-record emission step (yield-as-is for profiles, the
fallible flattening for events); when a record raises, the page's yielded
prefix and the error are the read's outcome and the continuation cursor is
never consulted.  The fuel argument only bounds recursion; each iteration
consumes at least one scripted response, so `script length + 1` fuel is never
exhausted before the script is. -/
def pageLoop (transform : Json → Except ApiError Json) :
    Nat → Json → List HttpResponse → List Json × Option ApiError
  | 0, _, _ => ([], some .scriptExhausted)
  | fuel + 1, _cursor, polls =>
    match retryLoop polls 0 with
    | .error e => ([], some e)
    | .ok (data, rest) =>
      match getRecords data with
      | .error e => ([], some e)
      | .ok records =>
        let page := emitRecords transform records
        if page.2.isSome then
          page
        else
          let next_cursor := data.get "next_cursor"
          if next_cursor.truthy then
            let result := pageLoop transform fuel next_cursor rest
            (page.1 ++ result.1, result.2)
          else
            page

/-- `read_records` on a fresh stream (streams.py lines 92-167 and 267-349):
fetch the initial cursor (step 1), then run the pagination loop (step 2).  The
scripted responses stand for the network. -/
def read_records (transform : Json → Except ApiError Json) (init : HttpResponse)
    (polls : List HttpResponse) : List Json × Option ApiError :=
  match getInitialCursor init with
  | .error e => ([], some e)
  | .ok cursor =>
    if cursor.truthy then
      pageLoop transform (polls.length + 1) cursor polls
    else
      ([], none)

/-- ProfilesStream yields each raw record unmodified (streams.py line 155);
a bare `yield record` cannot raise. -/
def profilesTransform : Json → Except ApiError Json := fun record => .ok record

/-- The success path of the EventsStream per-record flattening (streams.py
lines 327-336): `session_id` from the nested event-properties map, then
`pop("profile")`, then the seven profile sub-fields promoted to top level.
This is the object actually emitted when the step runs without raising;
`flatten_event?` adds the failure paths and only reaches this function under
its guards, where every `.get` receiver is a dict. -/
def flatten_event (record : Json) : Json :=
  match record with
  | .obj fields =>
    let session_id := (pyOr (Json.get (Json.obj fields) "event_props") (Json.obj [])).get
      "CT Session Id"
    let fields1 := setField fields "session_id" session_id
    let profile := pyOr (Json.get (Json.obj fields1) "profile") (Json.obj [])
    let fields2 := removeField fields1 "profile"
    let fields3 := setField fields2 "identity" (profile.get "identity")
    let fields4 := setField fields3 "name" (profile.get "name")
    let fields5 := setField fields4 "email" (profile.get "email")
    let fields6 := setField fields5 "phone" (profile.get "phone")
    let fields7 := setField fields6 "object_id" (profile.get "objectId")
    let fields8 := setField fields7 "all_identities" (profile.get "all_identities")
    let fields9 := setField fields8 "profile_data" (profile.get "profileData")
    Json.obj fields9
  | other => other

/-- The EventsStream per-record flattening step with its failure paths
(streams.py lines 327-336).  Python raises AttributeError when `.get` reaches a
non-dict: on a non-dict record (at `record.get("event_props")`), on a truthy
non-dict event_props value (`x or {}` replaces only falsy values by the empty
dict before `.get("CT Session Id")`), and on a truthy non-dict profile value
(at `profile.get("identity")` after the pop).  A raising record is never
yielded and the generator aborts, so the partially mutated record is not
observable and the checks are hoisted before the pure `flatten_event`; the
profile value is read from the original record since the session_id assignment
does not touch the "profile" binding. -/
def flatten_event? (record : Json) : Except ApiError Json :=
  match record with
  | .obj fields =>
    match pyOr (Json.get (Json.obj fields) "event_props") (Json.obj []) with
    | .obj _ =>
      match pyOr (Json.get (Json.obj fields) "profile") (Json.obj []) with
      | .obj _ => .ok (flatten_event (Json.obj fields))
      | other => .error (.attributeError other)
    | other => .error (.attributeError other)
  | other => .error (.attributeError other)

/-- EventsStream yields each record flattened, aborting on a record the
flattening step raises on. -/
def eventsTransform : Json → Except ApiError Json := flatten_event?

/-- The configuration mapping, restricted to the keys the source reads.  A
`none` field models an absent key; `region` values are the region code strings
of the vendor's config schema. -/
structure StreamConfig where
  account_id : Option Json
  passcode : Option Json
  start_date : Option Json
  end_date : Option Json
  region : Option String
  event_name : Option Json

/-- `config.get("end_date") or int(datetime.now().strftime("%Y%m%d"))`
(streams.py lines 26 and 200, source.py line 34): the configured value when
present and truthy, else today's date. -/
def resolveEndDate (end_date : Option Json) (today : Int) : Json :=
  pyOr (end_date.getD Json.null) (Json.num today)

/-- Base URL of ProfilesStream (streams.py lines 30-33). -/
def profilesBaseUrl (region : String) : String :=
  if region != "" then
    "https://" ++ region ++ ".api.clevertap.com"
  else
    "https://api.clevertap.com"

/-- Base URL of EventsStream (streams.py lines 204-207). -/
def eventsBaseUrl (region : String) : String :=
  if region != "" then
    "https://" ++ region ++ ".api.clevertap.com"
  else
    "https://api.clevertap.com"

/-- The values EventsStream.__init__ derives from the configuration
(streams.py lines 192-211). -/
structure EventsDerived where
  account_id : Json
  passcode : Json
  event_name : Json
  start_date : Json
  end_date : Json
  region : String
  base_url : String

/-- EventsStream.__init__ (streams.py lines 192-211): subscript access on the
required keys (a missing one raises KeyError, modelled as `none`), `get` on the
optional ones, end-date defaulting, region-based base URL. -/
def eventsStreamInit (config : StreamConfig) (today : Int) : Option EventsDerived :=
  match config.account_id, config.passcode, config.start_date with
  | some account_id, some passcode, some start_date =>
    some { account_id := account_id
           passcode := passcode
           event_name := config.event_name.getD Json.null
           start_date := start_date
           end_date := resolveEndDate config.end_date today
           region := config.region.getD ""
           base_url := eventsBaseUrl (config.region.getD "") }
  | _, _, _ => none

/-- EventsStream.__init__ with the configuration object threaded through
explicitly: the constructor only reads `config` (subscripts and `get`), so the
mapping it leaves behind is the one it received. -/
def eventsStreamInitState (config : StreamConfig) (today : Int) :
    Option EventsDerived × StreamConfig :=
  (eventsStreamInit config today, config)

/-- What a stream exposes to the harness. -/
structure StreamInfo where
  name : String
  primary_key : Option (List (List String))

/-- EventsStream.primary_key (streams.py lines 214-216). -/
def eventsPrimaryKey : Option (List (List String)) :=
  some [["identity"], ["session_id"], ["ts"]]

/-- ProfilesStream.primary_key (streams.py line 16): `None`. -/
def profilesPrimaryKey : Option (List (List String)) := none

/-- The events stream as exposed by the source. -/
def eventsStreamInfo : StreamInfo :=
  { name := "events", primary_key := eventsPrimaryKey }

/-- The profiles stream as defined in streams.py (name property, line 43). -/
def profilesStreamInfo : StreamInfo :=
  { name := "profiles", primary_key := profilesPrimaryKey }

/-- SourceClevertap.streams (source.py lines 55-65): the ProfilesStream entry
is commented out in the source, so only the events stream is returned. -/
def sourceStreams (_config : StreamConfig) : List StreamInfo :=
  [eventsStreamInfo]

/-- The messages attached to the caught exceptions in check_connection
(source.py line 53 interpolates the exception text). -/
def errorMessage : ApiError → String
  | .transport statusCode => "HTTP error " ++ toString statusCode
  | .remoteStatus _ => "API returned error status"
  | .noCursor _ => "No cursor returned from API"
  | .retryExhausted _ => "Max retries reached. API still not ready"
  | .nonListRecords _ => "records field is not a list"
  | .attributeError _ => "object has no attribute get"
  | .scriptExhausted => "no scripted response"

/-- The `stream._get_initial_cursor()` step of check_connection (source.py
lines 43-50), with the try/except of lines 25-53 made explicit. -/
def checkCursorStep (initResponse : HttpResponse) : Bool × Option String :=
  match getInitialCursor initResponse with
  | .error e => (false, some ("Connection check failed: " ++ errorMessage e))
  | .ok cursor =>
    if cursor.truthy then
      (true, none)
    else
      (false, some "Failed to get cursor from CleverTap API")

/-- SourceClevertap.check_connection (source.py lines 17-53): required-field
check, start-date type check, date-order check, then the initiation call; every
failure is converted to `(false, message)`. -/
def check_connection (config : StreamConfig) (today : Int)
    (initResponse : HttpResponse) : Bool × Option String :=
  if config.account_id.isNone then
    (false, some "Missing required config field: account_id")
  else if config.passcode.isNone then
    (false, some "Missing required config field: passcode")
  else if config.start_date.isNone then
    (false, some "Missing required config field: start_date")
  else
    match config.start_date.getD Json.null, resolveEndDate config.end_date today with
    | Json.num s, Json.num e =>
      if s > e then
        (false, some "start_date must be less than or equal to end_date")
      else
        checkCursorStep initResponse
    | Json.num _, _ => checkCursorStep initResponse
    | _, _ => (false, some "start_date must be an integer in YYYYMMDD format")

/-! Concrete response fixtures used by the theorems. -/

/-- A "still processing" poll body: status "fail", code 2. -/
def fail2Body : Json :=
  Json.obj [("status", Json.str "fail"), ("code", Json.num 2)]

/-- A "still processing" poll response. -/
def fail2Resp : HttpResponse :=
  { statusCode := 200, body := fail2Body }

/-- A final accepted poll body: status "success", the given records, a null
cursor field and no continuation cursor. -/
def successBody (records : List Json) : Json :=
  Json.obj [("status", Json.str "success"), ("records", Json.arr records),
    ("cursor", Json.null)]

/-- The response carrying `successBody`. -/
def successResp (records : List Json) : HttpResponse :=
  { statusCode := 200, body := successBody records }

/-- An accepted poll body carrying records and a continuation cursor. -/
def pageBody (records : List Json) (next : Json) : Json :=
  Json.obj [("status", Json.str "success"), ("records", Json.arr records),
    ("next_cursor", next)]

/-- The response carrying `pageBody`. -/
def pageResp (records : List Json) (next : Json) : HttpResponse :=
  { statusCode := 200, body := pageBody records next }

/-- An accepted poll body with records and no continuation-cursor field. -/
def lastPageBody (records : List Json) : Json :=
  Json.obj [("status", Json.str "success"), ("records", Json.arr records)]

/-- The response carrying `lastPageBody`. -/
def lastPageResp (records : List Json) : HttpResponse :=
  { statusCode := 200, body := lastPageBody records }

/-- A successful initiation body carrying a cursor. -/
def initOkBody : Json :=
  Json.obj [("status", Json.str "success"), ("cursor", Json.str "CURSOR-0")]

/-- The response carrying `initOkBody`. -/
def initOkResp : HttpResponse :=
  { statusCode := 200, body := initOkBody }

/-! Theorems settling the claims. -/

/-- ProfilesStream's per-record emission yields every record of a page
unmodified and never aborts. -/
lemma emitRecords_profilesTransform (l : List Json) :
    emitRecords profilesTransform l = (l, none) := by
  induction l with
  | nil => rfl
  | cons a t ih => simp [emitRecords, profilesTransform, ih]

/-- Emission over a page whose records the transform accepts yields their
images in order and does not abort. -/
lemma emitRecords_ok (transform : Json → Except ApiError Json) (l out : List Json)
    (h : l.map transform = out.map Except.ok) :
    emitRecords transform l = (out, none) := by
  induction l generalizing out with
  | nil =>
    cases out with
    | nil => rfl
    | cons o os => simp at h
  | cons a t ih =>
    cases out with
    | nil => simp at h
    | cons o os =>
      simp only [List.map_cons, List.cons.injEq] at h
      simp [emitRecords, h.1, ih os h.2]

/-- Each "still processing" response consumes one attempt while the budget
allows a further retry. -/
lemma retryLoop_replicate (n : Nat) (rest : List HttpResponse) :
    ∀ a, a + n ≤ 9 →
      retryLoop (List.replicate n fail2Resp ++ rest) a = retryLoop rest (a + n) := by
  induction n with
  | zero => intro a _; simp
  | succ n ih =>
    intro a h
    rw [List.replicate_succ, List.cons_append]
    show (if a < max_retries - 1 then
            retryLoop (List.replicate n fail2Resp ++ rest) (a + 1)
          else Except.error (ApiError.retryExhausted fail2Body))
        = retryLoop rest (a + (n + 1))
    rw [if_pos (by rw [show max_retries - 1 = 9 from rfl]; omega),
      ih (a + 1) (by omega)]
    congr 1
    omega

/-- Once ten "still processing" responses are scripted, the retry budget is
exhausted regardless of what follows. -/
lemma retryLoop_replicate_exhaust (n : Nat) (rest : List HttpResponse) :
    ∀ a, a ≤ 9 → 10 ≤ a + n →
      retryLoop (List.replicate n fail2Resp ++ rest) a
        = .error (.retryExhausted fail2Body) := by
  induction n with
  | zero => intro a ha hn; omega
  | succ n ih =>
    intro a ha hn
    rw [List.replicate_succ, List.cons_append]
    show (if a < max_retries - 1 then
            retryLoop (List.replicate n fail2Resp ++ rest) (a + 1)
          else Except.error (ApiError.retryExhausted fail2Body)) = _
    rcases Nat.lt_or_ge a 9 with h | h
    · rw [if_pos (by rw [show max_retries - 1 = 9 from rfl]; omega)]
      exact ih (a + 1) (by omega) (by omega)
    · rw [if_neg (by rw [show max_retries - 1 = 9 from rfl]; omega)]

/-- A final accepted page (no truthy continuation cursor) behaves as the
emission loop over its records, whether or not a record raises. -/
lemma pageLoop_lastPage (tf : Json → Except ApiError Json) (fuel : Nat)
    (c : Json) (rs : List Json) :
    pageLoop tf (fuel + 1) c [lastPageResp rs] = emitRecords tf rs := by
  show (if ((emitRecords tf rs).2.isSome = true) then emitRecords tf rs
        else emitRecords tf rs) = emitRecords tf rs
  exact ite_self _

/-- An accepted page whose records are all emitted and which carries a truthy
continuation cursor prepends its output to the rest of the pagination. -/
lemma pageLoop_pageStep (tf : Json → Except ApiError Json) (fuel : Nat)
    (c : Json) (rs : List Json) (next : Json) (rest : List HttpResponse)
    (out : List Json) (hemit : emitRecords tf rs = (out, none))
    (hnext : next.truthy = true) :
    pageLoop tf (fuel + 1) c (pageResp rs next :: rest)
      = (out ++ (pageLoop tf fuel next rest).1, (pageLoop tf fuel next rest).2) := by
  show (if ((emitRecords tf rs).2.isSome = true) then emitRecords tf rs
        else if (next.truthy = true) then
          ((emitRecords tf rs).1 ++ (pageLoop tf fuel next rest).1,
            (pageLoop tf fuel next rest).2)
        else emitRecords tf rs) = _
  rw [hemit]
  simp [hnext]

/-- A page whose poll answers are some "still processing" responses followed by
an accepted final page behaves as the emission loop over that page's records. -/
lemma pageLoop_skips_fails (tf : Json → Except ApiError Json) (fuel : Nat)
    (c : Json) (rs : List Json) (N : Nat) (hN : N ≤ 9) :
    pageLoop tf (fuel + 1) c (List.replicate N fail2Resp ++ [successResp rs])
      = emitRecords tf rs := by
  have h1 := retryLoop_replicate N [successResp rs] 0 (by omega)
  simp only [pageLoop]
  rw [h1]
  show (if ((emitRecords tf rs).2.isSome = true) then emitRecords tf rs
        else emitRecords tf rs) = emitRecords tf rs
  exact ite_self _

/-- C1: with N "still processing" poll bodies before the success body, the read
accepts the final page and emits exactly its records when N < 10, and aborts
with the retry-exhausted error, emitting nothing, when N >= 10; the budget is
max_retries = 10 attempts, retry_delay = 5 seconds. -/
theorem retry_budget (N : Nat) (records : List Json) :
    (N < 10 →
      read_records profilesTransform initOkResp
          (List.replicate N fail2Resp ++ [successResp records])
        = (records, none)) ∧
    (10 ≤ N →
      read_records profilesTransform initOkResp
          (List.replicate N fail2Resp ++ [successResp records])
        = ([], some (ApiError.retryExhausted fail2Body))) ∧
    max_retries = 10 ∧ retry_delay = 5 := by
  refine ⟨?_, ?_, rfl, rfl⟩
  · intro hN
    show pageLoop profilesTransform
        ((List.replicate N fail2Resp ++ [successResp records]).length + 1)
        (Json.str "CURSOR-0") (List.replicate N fail2Resp ++ [successResp records]) = _
    rw [show (List.replicate N fail2Resp ++ [successResp records]).length = N + 1 by simp]
    rw [pageLoop_skips_fails profilesTransform (N + 1) (Json.str "CURSOR-0") records N
      (by omega)]
    exact emitRecords_profilesTransform records
  · intro hN
    show pageLoop profilesTransform
        ((List.replicate N fail2Resp ++ [successResp records]).length + 1)
        (Json.str "CURSOR-0") (List.replicate N fail2Resp ++ [successResp records]) = _
    rw [show (List.replicate N fail2Resp ++ [successResp records]).length = N + 1 by simp]
    simp only [pageLoop]
    rw [retryLoop_replicate_exhaust N [successResp records] 0 (by omega) (by omega)]

/-- C1 witness: three retries then success at N = 3; exhaustion at N = 10. -/
theorem retry_budget_witness :
    read_records profilesTransform initOkResp
        (List.replicate 3 fail2Resp ++ [successResp [Json.num 1]])
      = ([Json.num 1], none) ∧
    read_records profilesTransform initOkResp
        (List.replicate 10 fail2Resp ++ [successResp [Json.num 1]])
      = ([], some (ApiError.retryExhausted fail2Body)) :=
  ⟨(retry_budget 3 [Json.num 1]).1 (by omega),
   (retry_budget 10 [Json.num 1]).2.1 (by omega)⟩

/-- C2 counterexample: the claim ranges over the records the pages carry, but
for the events resource a record whose profile value is the truthy string
"abc" makes `"abc".get("identity")` raise: with P1 carrying that record (and an
empty-object record) plus a continuation cursor and P2 carrying an
empty-object record, the events read aborts on P1's first record and emits
nothing — not the three flattened records with normal termination. -/
theorem pagination_order_cex :
    read_records eventsTransform initOkResp
        [pageResp [Json.obj [("profile", Json.str "abc")], Json.obj []]
            (Json.str "C2"),
         lastPageResp [Json.obj []]]
      = ([], some (.attributeError (Json.str "abc"))) ∧
    (read_records eventsTransform initOkResp
        [pageResp [Json.obj [("profile", Json.str "abc")], Json.obj []]
            (Json.str "C2"),
         lastPageResp [Json.obj []]]).2 ≠ none :=
  ⟨rfl, fun h => Option.noConfusion h⟩

/-- C2 (amended): with accepted pages P1 (records [a, b], continuation cursor
"C2") and P2 (records [c], no continuation cursor), the profiles read emits
exactly [a, b, c] in that order and terminates after P2; the events read,
provided the flattening step accepts each record, emits the same records in
the same order, each flattened; a page with zero records emits nothing while
pagination continues on its continuation cursor. -/
theorem pagination_order (a b c : Json) :
    read_records profilesTransform initOkResp
        [pageResp [a, b] (Json.str "C2"), lastPageResp [c]] = ([a, b, c], none) ∧
    (∀ fa fb fc, flatten_event? a = .ok fa → flatten_event? b = .ok fb →
      flatten_event? c = .ok fc →
      read_records eventsTransform initOkResp
          [pageResp [a, b] (Json.str "C2"), lastPageResp [c]]
        = ([fa, fb, fc], none)) ∧
    read_records profilesTransform initOkResp
        [pageResp [] (Json.str "C2"), lastPageResp [c]] = ([c], none) := by
  refine ⟨rfl, ?_, rfl⟩
  intro fa fb fc ha hb hc
  have he1 : emitRecords eventsTransform [a, b] = ([fa, fb], none) := by
    simp [emitRecords, eventsTransform, ha, hb]
  have he2 : emitRecords eventsTransform [c] = ([fc], none) := by
    simp [emitRecords, eventsTransform, hc]
  show pageLoop eventsTransform (2 + 1) (Json.str "CURSOR-0")
      [pageResp [a, b] (Json.str "C2"), lastPageResp [c]] = ([fa, fb, fc], none)
  rw [pageLoop_pageStep eventsTransform 2 (Json.str "CURSOR-0") [a, b]
      (Json.str "C2") [lastPageResp [c]] [fa, fb] he1 rfl]
  rw [show (2 : Nat) = 1 + 1 from rfl,
    pageLoop_lastPage eventsTransform 1 (Json.str "C2") [c], he2]
  rfl

/-- C2 amended witness: three empty-object records through the events read. -/
theorem pagination_order_witness :
    read_records eventsTransform initOkResp
        [pageResp [Json.obj [], Json.obj []] (Json.str "C2"),
         lastPageResp [Json.obj []]]
      = ([flatten_event (Json.obj []), flatten_event (Json.obj []),
          flatten_event (Json.obj [])], none) :=
  (pagination_order (Json.obj []) (Json.obj []) (Json.obj [])).2.1
    (flatten_event (Json.obj [])) (flatten_event (Json.obj []))
    (flatten_event (Json.obj [])) rfl rfl rfl

/-- C4 (code evaluated at the failing input): for every configuration the
source exposes a single stream, the events stream, whose primary key is the
composite [identity, session_id, ts]; the profiles stream class carries no
primary key but is not registered (source.py line 63 is commented out), so the
stream list has length 1, not 2 as the spec and the unit test
`test_streams` (which asserts `len(streams) == 2`) demand. -/
theorem streams_single_events (config : StreamConfig) :
    sourceStreams config = [eventsStreamInfo] ∧
    (sourceStreams config).length = 1 ∧
    (sourceStreams config).map StreamInfo.name = ["events"] ∧
    eventsStreamInfo.primary_key = some [["identity"], ["session_id"], ["ts"]] ∧
    profilesPrimaryKey = none :=
  ⟨rfl, rfl, rfl, rfl, rfl⟩

/-- C5: an initiation response with 2xx transport status whose body has status
"success" but no cursor key fails with the "no cursor returned" error, and the
read consumes no poll response: its outcome is the same for every poll script. -/
theorem no_cursor_protocol_error (fields : List (String × Json)) (code : Nat)
    (hcode : code < 400)
    (hst : lookupField fields "status" = some (Json.str "success"))
    (hcur : lookupField fields "cursor" = none) :
    getInitialCursor { statusCode := code, body := Json.obj fields }
      = .error (.noCursor (Json.obj fields)) ∧
    ∀ (transform : Json → Except ApiError Json) (polls : List HttpResponse),
      read_records transform { statusCode := code, body := Json.obj fields } polls
        = ([], some (.noCursor (Json.obj fields))) := by
  have hinit : getInitialCursor { statusCode := code, body := Json.obj fields }
      = .error (.noCursor (Json.obj fields)) := by
    unfold getInitialCursor
    rw [if_pos (by simpa [httpOk] using hcode)]
    simp [Json.get, Json.get?, hst, hcur, Json.isStr, Json.truthy]
  refine ⟨hinit, fun transform polls => ?_⟩
  unfold read_records
  rw [hinit]

/-- C5 witness: the concrete cursorless success body. -/
theorem no_cursor_protocol_error_witness :
    read_records profilesTransform
        { statusCode := 200, body := Json.obj [("status", Json.str "success")] } []
      = ([], some (.noCursor (Json.obj [("status", Json.str "success")]))) :=
  (no_cursor_protocol_error [("status", Json.str "success")] 200 (by omega)
    rfl rfl).2 profilesTransform []

/-- C7: base-address derivation is the same pure function of the region for
both resource kinds; a non-empty region gives the region-scoped host and an
empty or absent region gives the unscoped default host. -/
theorem region_base_url (region : Option String) :
    profilesBaseUrl (region.getD "") = eventsBaseUrl (region.getD "") ∧
    (∀ s, region = some s → s ≠ "" →
      eventsBaseUrl (region.getD "") = "https://" ++ s ++ ".api.clevertap.com") ∧
    (region = none ∨ region = some "" →
      eventsBaseUrl (region.getD "") = "https://api.clevertap.com") := by
  refine ⟨rfl, ?_, ?_⟩
  · intro s hs hne
    subst hs
    simp [eventsBaseUrl, hne]
  · rintro (h | h) <;> subst h <;> rfl

/-- C7 witness: region "in1" and an absent region. -/
theorem region_base_url_witness :
    eventsBaseUrl ((some "in1").getD "") = "https://in1.api.clevertap.com" ∧
    eventsBaseUrl ((none : Option String).getD "") = "https://api.clevertap.com" :=
  ⟨(region_base_url (some "in1")).2.1 "in1" rfl (by decide),
   (region_base_url none).2.2 (Or.inl rfl)⟩

/-- C9: the EventsStream constructor derives the sync window and endpoint as a
pure function of the configuration and leaves the configuration unmodified, so
running it twice yields identical derived values. -/
theorem session_configurator_idempotent (config : StreamConfig) (today : Int) :
    (eventsStreamInitState config today).2 = config ∧
    eventsStreamInitState (eventsStreamInitState config today).2 today
      = eventsStreamInitState config today ∧
    (eventsStreamInitState (eventsStreamInitState config today).2 today).1
      = (eventsStreamInitState config today).1 :=
  ⟨rfl, rfl, rfl⟩


/-- Looking a key up after a dict assignment: the assigned value at that key,
the previous binding elsewhere. -/
lemma lookupField_setField (l : List (String × Json)) (k j : String) (v : Json) :
    lookupField (setField l k v) j = if j = k then some v else lookupField l j := by
  induction l with
  | nil =>
    by_cases h : j = k
    · subst h; simp [setField, lookupField]
    · simp [setField, lookupField, h, Ne.symm h]
  | cons p rest ih =>
    obtain ⟨pk, pv⟩ := p
    by_cases hpk : pk = k
    · subst hpk
      by_cases hj : j = pk
      · subst hj; simp [setField, lookupField]
      · simp [setField, lookupField, hj, Ne.symm hj]
    · by_cases hj : pk = j
      · subst hj
        simp [setField, lookupField, hpk, Ne.symm hpk]
      · simp [setField, lookupField, hpk, hj, ih]

/-- Looking a key up after a dict `pop`: gone at that key, unchanged elsewhere. -/
lemma lookupField_removeField (l : List (String × Json)) (k j : String) :
    lookupField (removeField l k) j = if j = k then none else lookupField l j := by
  induction l with
  | nil => simp [removeField, lookupField]
  | cons p rest ih =>
    obtain ⟨pk, pv⟩ := p
    by_cases hpk : pk = k
    · subst hpk
      by_cases hj : j = pk
      · subst hj; simp [removeField, lookupField] at ih ⊢; simp [ih]
      · simp [removeField, lookupField, hj, Ne.symm hj] at ih ⊢; simp [ih, hj]
    · by_cases hj : pk = j
      · subst hj
        simp [removeField, lookupField, hpk, Ne.symm hpk]
      · simp [removeField, lookupField, hpk, hj] at ih ⊢; simp [ih]

/-- The profile object flatten_event reads: the record's profile field, or the
empty object when that field is absent or falsy. -/
def eventProfile (fields : List (String × Json)) : Json :=
  pyOr (Json.get (Json.obj fields) "profile") (Json.obj [])

/-- The session id flatten_event derives from the event-properties map. -/
def eventSessionId (fields : List (String × Json)) : Json :=
  (pyOr (Json.get (Json.obj fields) "event_props") (Json.obj [])).get "CT Session Id"

/-- Field-level description of flatten_event on a record object: the seven
promoted profile sub-fields, no profile key, the derived session id, and all
other keys unchanged. -/
lemma flatten_event_get (fields : List (String × Json)) (j : String) :
    Json.get? (flatten_event (Json.obj fields)) j
      = (if j = "profile_data" then some ((eventProfile fields).get "profileData")
         else if j = "all_identities" then some ((eventProfile fields).get "all_identities")
         else if j = "object_id" then some ((eventProfile fields).get "objectId")
         else if j = "phone" then some ((eventProfile fields).get "phone")
         else if j = "email" then some ((eventProfile fields).get "email")
         else if j = "name" then some ((eventProfile fields).get "name")
         else if j = "identity" then some ((eventProfile fields).get "identity")
         else if j = "profile" then none
         else if j = "session_id" then some (eventSessionId fields)
         else lookupField fields j) := by
  simp only [flatten_event, eventProfile, eventSessionId, Json.get?, Json.get,
    lookupField_setField, lookupField_removeField]
  simp



/-- C3: an events record with profile {identity: "u1", email: "e@x.com"} and
event_props {"CT Session Id": "s1"} is emitted with top-level identity "u1",
email "e@x.com", session_id "s1", and with the profile key removed. -/
theorem events_flatten_promotes (fields : List (String × Json))
    (hp : lookupField fields "profile"
      = some (Json.obj [("identity", Json.str "u1"), ("email", Json.str "e@x.com")]))
    (he : lookupField fields "event_props"
      = some (Json.obj [("CT Session Id", Json.str "s1")])) :
    Json.get? (flatten_event (Json.obj fields)) "identity" = some (Json.str "u1") ∧
    Json.get? (flatten_event (Json.obj fields)) "email" = some (Json.str "e@x.com") ∧
    Json.get? (flatten_event (Json.obj fields)) "session_id" = some (Json.str "s1") ∧
    Json.get? (flatten_event (Json.obj fields)) "profile" = none := by
  have hprof : eventProfile fields
      = Json.obj [("identity", Json.str "u1"), ("email", Json.str "e@x.com")] := by
    simp [eventProfile, Json.get, Json.get?, hp, pyOr, Json.truthy]
  have hsid : eventSessionId fields = Json.str "s1" := by
    simp [eventSessionId, Json.get, Json.get?, he, pyOr, Json.truthy, lookupField]
  refine ⟨?_, ?_, ?_, ?_⟩ <;>
    simp [flatten_event_get, hprof, hsid] <;> rfl

/-- C3 witness: the two-field record itself. -/
theorem events_flatten_promotes_witness :
    Json.get? (flatten_event (Json.obj
        [("profile", Json.obj [("identity", Json.str "u1"), ("email", Json.str "e@x.com")]),
         ("event_props", Json.obj [("CT Session Id", Json.str "s1")])])) "identity"
      = some (Json.str "u1") :=
  (events_flatten_promotes
    [("profile", Json.obj [("identity", Json.str "u1"), ("email", Json.str "e@x.com")]),
     ("event_props", Json.obj [("CT Session Id", Json.str "s1")])] rfl rfl).1

/-- A JSON value is a dict exactly when it is an `obj`. -/
lemma isObj_iff (j : Json) : j.isObj = true ↔ ∃ f, j = Json.obj f := by
  cases j <;> simp [Json.isObj]

/-- C10 counterexample: a record whose profile value is the truthy string
"abc": `record.pop("profile", {}) or {}` keeps the string, so
`"abc".get("identity")` raises AttributeError — the flattening step fails, and
the events read over a page containing that record aborts emitting nothing. -/
theorem events_flatten_cex :
    flatten_event? (Json.obj [("profile", Json.str "abc")])
      = .error (.attributeError (Json.str "abc")) ∧
    flatten_event? (Json.obj [("event_props", Json.str "oops")])
      = .error (.attributeError (Json.str "oops")) ∧
    read_records eventsTransform initOkResp
        [successResp [Json.obj [("profile", Json.str "abc")]]]
      = ([], some (.attributeError (Json.str "abc"))) :=
  ⟨rfl, rfl, rfl⟩

/-- C10 (amended): flattening a record object whose event_props and profile
values are dicts whenever truthy (`x or {}` turns falsy ones — absent, null,
empty — into the empty dict) never fails and emits the pure `flatten_event`
result; that emitted record always has the keys session_id, identity, name,
email, phone, object_id, all_identities and profile_data, never has a profile
key, and the derived fields are null when the profile (resp. event_props)
field is absent or null. -/
theorem events_flatten_total (fields : List (String × Json))
    (hep : (pyOr (Json.get (Json.obj fields) "event_props")
        (Json.obj [])).isObj = true)
    (hpr : (pyOr (Json.get (Json.obj fields) "profile")
        (Json.obj [])).isObj = true) :
    flatten_event? (Json.obj fields) = .ok (flatten_event (Json.obj fields)) ∧
    Json.get? (flatten_event (Json.obj fields)) "profile" = none ∧
    (Json.get? (flatten_event (Json.obj fields)) "session_id").isSome ∧
    (Json.get? (flatten_event (Json.obj fields)) "identity").isSome ∧
    (Json.get? (flatten_event (Json.obj fields)) "name").isSome ∧
    (Json.get? (flatten_event (Json.obj fields)) "email").isSome ∧
    (Json.get? (flatten_event (Json.obj fields)) "phone").isSome ∧
    (Json.get? (flatten_event (Json.obj fields)) "object_id").isSome ∧
    (Json.get? (flatten_event (Json.obj fields)) "all_identities").isSome ∧
    (Json.get? (flatten_event (Json.obj fields)) "profile_data").isSome ∧
    ((lookupField fields "profile" = none ∨ lookupField fields "profile" = some Json.null) →
      Json.get? (flatten_event (Json.obj fields)) "identity" = some Json.null ∧
      Json.get? (flatten_event (Json.obj fields)) "name" = some Json.null ∧
      Json.get? (flatten_event (Json.obj fields)) "email" = some Json.null ∧
      Json.get? (flatten_event (Json.obj fields)) "phone" = some Json.null ∧
      Json.get? (flatten_event (Json.obj fields)) "object_id" = some Json.null ∧
      Json.get? (flatten_event (Json.obj fields)) "all_identities" = some Json.null ∧
      Json.get? (flatten_event (Json.obj fields)) "profile_data" = some Json.null) ∧
    ((lookupField fields "event_props" = none
        ∨ lookupField fields "event_props" = some Json.null) →
      Json.get? (flatten_event (Json.obj fields)) "session_id" = some Json.null) := by
  refine ⟨?_, ?_, ?_, ?_, ?_, ?_, ?_, ?_, ?_, ?_, ?_, ?_⟩
  · obtain ⟨epf, hepf⟩ := (isObj_iff _).mp hep
    obtain ⟨pf, hpf⟩ := (isObj_iff _).mp hpr
    simp only [flatten_event?]
    rw [hepf, hpf]
  · simp [flatten_event_get]
  · simp [flatten_event_get]
  · simp [flatten_event_get]
  · simp [flatten_event_get]
  · simp [flatten_event_get]
  · simp [flatten_event_get]
  · simp [flatten_event_get]
  · simp [flatten_event_get]
  · simp [flatten_event_get]
  · intro h
    have hprof : eventProfile fields = Json.obj [] := by
      rcases h with h | h <;> simp [eventProfile, Json.get, Json.get?, h, pyOr, Json.truthy]
    refine ⟨?_, ?_, ?_, ?_, ?_, ?_, ?_⟩ <;> simp [flatten_event_get, hprof] <;> rfl
  · intro h
    have hsid : eventSessionId fields = Json.null := by
      rcases h with h | h <;>
        simp [eventSessionId, Json.get, Json.get?, h, pyOr, Json.truthy, lookupField]
    simp [flatten_event_get, hsid]

/-- C10 witness: the empty record, whose profile and event_props are absent. -/
theorem events_flatten_total_witness :
    flatten_event? (Json.obj []) = .ok (flatten_event (Json.obj [])) ∧
    Json.get? (flatten_event (Json.obj [])) "profile" = none ∧
    Json.get? (flatten_event (Json.obj [])) "identity" = some Json.null ∧
    Json.get? (flatten_event (Json.obj [])) "session_id" = some Json.null :=
  ⟨(events_flatten_total [] rfl rfl).1,
   (events_flatten_total [] rfl rfl).2.1,
   ((events_flatten_total [] rfl rfl).2.2.2.2.2.2.2.2.2.2.1 (Or.inl rfl)).1,
   (events_flatten_total [] rfl rfl).2.2.2.2.2.2.2.2.2.2.2 (Or.inl rfl)⟩



/-- The configuration exhibiting the C6 divergence: start_date 1, end_date 0. -/
def zeroEndConfig : StreamConfig :=
  { account_id := some (Json.str "a"), passcode := some (Json.str "p"),
    start_date := some (Json.num 1), end_date := some (Json.num 0),
    region := none, event_name := none }

/-- C6 counterexample: with end_date present as 0 and start_date 1, the claim
resolves end_date to the configured 0, so start_date > end_date and the check
must fail before any network call; the code instead treats the falsy 0 as
absent, resolves end_date to the current date, issues the initiation call, and
returns success — the outcome depends on the network response. -/
theorem start_after_end_cex :
    check_connection zeroEndConfig 20261012 initOkResp = (true, none) ∧
    check_connection zeroEndConfig 20261012 { statusCode := 500, body := Json.null }
      = (false, some "Connection check failed: HTTP error 500") :=
  ⟨rfl, rfl⟩

/-- C6 amended: when start_date is an integer greater than the resolved
end_date — the configured value when present and truthy (non-zero), else the
current date — the connectivity check fails before any network call: its result
has first component false and is independent of the initiation response. -/
theorem start_after_end_fails (config : StreamConfig) (today s e : Int)
    (hs : config.start_date = some (Json.num s))
    (he : resolveEndDate config.end_date today = Json.num e)
    (hgt : s > e) :
    ∀ r₁ r₂ : HttpResponse,
      check_connection config today r₁ = check_connection config today r₂ ∧
      (check_connection config today r₁).1 = false := by
  intro r₁ r₂
  unfold check_connection
  rcases hacc : config.account_id with _ | av
  · simp [hacc]
  rcases hpass : config.passcode with _ | pv
  · simp [hacc, hpass]
  simp only [hacc, hpass, hs, Option.isNone_some, Bool.false_eq_true, if_false,
    Option.isNone_none, Option.getD_some, he]
  rw [if_pos hgt, if_pos hgt]
  exact ⟨rfl, rfl⟩

/-- C6 amended witness: start_date 5 against configured end_date 3. -/
theorem start_after_end_fails_witness :
    (check_connection
        { account_id := some (Json.str "a"), passcode := some (Json.str "p"),
          start_date := some (Json.num 5), end_date := some (Json.num 3),
          region := none, event_name := none } 20261012 initOkResp).1 = false :=
  (start_after_end_fails
    { account_id := some (Json.str "a"), passcode := some (Json.str "p"),
      start_date := some (Json.num 5), end_date := some (Json.num 3),
      region := none, event_name := none } 20261012 5 3 rfl rfl (by omega)
    initOkResp initOkResp).2

/-- C8: check_connection never propagates an error: for every configuration,
clock value and initiation response it returns (true, none) on success and
(false, message) on every failure. -/
theorem check_connection_shape (config : StreamConfig) (today : Int)
    (resp : HttpResponse) :
    check_connection config today resp = (true, none) ∨
    ((check_connection config today resp).1 = false ∧
      ((check_connection config today resp).2).isSome) := by
  unfold check_connection checkCursorStep
  repeat' split
  all_goals simp


end Clevertap
